import Mathlib

/-!
Verification development for the Shopify custom product-options app.

The embedding covers the two core pieces of the repository:

* the storefront option-renderer helpers in
  `extensions/options/assets/option-renderers.js`
  (`wrapWithConditional`, `validateNumberInput`), and
* the checkout cart transform (`cartTransformRun`, `getAttributes`,
  `EXCLUDED_ATTRIBUTES`).

JavaScript builtins are embedded as Lean functions over the input space this
program exercises: `parseFloat` / `parseInt` are modelled for decimal numeral
strings (prefix parse, leading whitespace, optional sign; no exponents, no
hex autodetection, no `Infinity`), and `JSON.parse` of the attribute blob is
abstracted by its outcome (`Blob`): absent, throwing, or succeeding with a
list of key/value entries.  Decimal amounts are modelled as rationals; a JS
`NaN` amount is modelled by `none`.
-/

namespace ShopifyOptionsApp

/-! ## JavaScript numeric-string parsing -/

/-- Numeric value of a digit list read left to right (most significant first). -/
def digitsVal (ds : List Char) : ℕ :=
  ds.foldl (fun acc c => 10 * acc + (c.toNat - 48)) 0

/-- Split a character list into its longest leading run of decimal digits and
the remainder. -/
def takeDigits : List Char → List Char × List Char
  | [] => ([], [])
  | c :: cs =>
    if c.isDigit then
      let r := takeDigits cs
      (c :: r.1, r.2)
    else ([], c :: cs)

/-- Drop leading whitespace, as JS number parsing does. -/
def skipWhitespace : List Char → List Char
  | [] => []
  | c :: cs => if c.isWhitespace then skipWhitespace cs else c :: cs

/-- Embedding of JS `parseFloat` on decimal numeral strings: skip leading
whitespace, read an optional sign, then digits, an optional point and more
digits (a prefix parse; trailing junk is ignored).  `none` models `NaN`.
The value `± (int + frac / 10^k)` is built with `Rat.divInt` as
`± (int * 10^k + frac) / 10^k`. -/
def parseFloatJS (s : String) : Option ℚ :=
  let t := skipWhitespace s.data
  let signAndRest : Bool × List Char :=
    match t with
    | '-' :: rest => (true, rest)
    | '+' :: rest => (false, rest)
    | _ => (false, t)
  let ip := takeDigits signAndRest.2
  let fp : List Char × List Char :=
    match ip.2 with
    | '.' :: rest => takeDigits rest
    | _ => ([], ip.2)
  if ip.1.isEmpty && fp.1.isEmpty then none
  else
    let mag : ℤ := (digitsVal ip.1 : ℤ) * 10 ^ fp.1.length + (digitsVal fp.1 : ℤ)
    some (Rat.divInt (if signAndRest.1 then -mag else mag) ((10 : ℤ) ^ fp.1.length))

/-- Embedding of JS `parseInt` on decimal numeral strings: skip leading
whitespace, read an optional sign and then the longest digit run (a prefix
parse).  `none` models `NaN`. -/
def parseIntJS (s : String) : Option ℤ :=
  let t := skipWhitespace s.data
  let signAndRest : ℤ × List Char :=
    match t with
    | '-' :: rest => (-1, rest)
    | '+' :: rest => (1, rest)
    | _ => (1, t)
  let ds := takeDigits signAndRest.2
  if ds.1.isEmpty then none
  else some (signAndRest.1 * (digitsVal ds.1 : ℤ))

/-! ## Cart Price Transform

Embedding of `cartTransformRun`, `getAttributes` and `EXCLUDED_ATTRIBUTES`
from the cart-transform function source.  A cart line carries the fields the
function reads: `item.id`, `item.cost.amountPerQuantity.amount` (a decimal
string), `(item.merchandise as ProductVariant).id`, `item.priceAttribute?.value`
(`none` models an absent attribute; JS truthiness makes the empty string act
like absence), and `item.attribute?.value`, the serialized attribute blob.
`JSON.parse` of the blob is abstracted by its outcome (`Blob`). -/

/-- A cart line attribute, a key/value pair of strings. -/
structure Attr where
  key : String
  value : String
  deriving DecidableEq, Repr

/-- Outcome of the serialized attribute blob on a cart line: the blob is
absent (or falsy), `JSON.parse` throws on it, or `JSON.parse` succeeds and
`Object.entries` yields the listed key/value pairs in order. -/
inductive Blob where
  | missing : Blob
  | malformed : Blob
  | parsed : List Attr → Blob
  deriving DecidableEq, Repr

/-- The fields of a cart line read by `cartTransformRun`. -/
structure CartLine where
  id : String
  costAmount : String
  merchandiseId : String
  priceAttribute : Option String
  attributeBlob : Blob
  deriving DecidableEq, Repr

/-- `getAttributes`: parse the serialized attribute blob into a key/value
list; an absent blob, or one on which `JSON.parse` throws, yields the empty
list (the `try`/`catch` in the source swallows the exception). -/
def getAttributes (item : CartLine) : List Attr :=
  match item.attributeBlob with
  | .parsed entries => entries
  | _ => []

/-- `EXCLUDED_ATTRIBUTES`: the processed marker and the raw price signal. -/
def EXCLUDED_ATTRIBUTES : List String :=
  ["_cart_transform_processed", "_price"]

/-- One replacement item inside a `lineExpand` operation.  `amount` is the
`fixedPricePerUnit` amount; `none` models a JS `NaN` (the source computes
`parseFloat(cost) + additionalPrice` without checking the cost parse). -/
structure ExpandedItem where
  merchandiseId : String
  quantity : ℕ
  amount : Option ℚ
  attributes : List Attr
  deriving DecidableEq, Repr

/-- A `lineExpand` cart operation. -/
structure LineExpand where
  cartLineId : String
  expandedCartItems : List ExpandedItem
  deriving DecidableEq, Repr

/-- A cart operation (the source only ever builds `lineExpand` operations). -/
structure CartOperation where
  lineExpand : LineExpand
  deriving DecidableEq, Repr

/-- The result returned to the checkout pricing engine. -/
structure CartTransformRunResult where
  operations : List CartOperation
  deriving DecidableEq, Repr

/-- The per-line body of the `forEach` loop in `cartTransformRun`: `none`
when the line contributes no operation, `some op` when it pushes `op`.
Mirrors the source: read `parseFloat` of the cost, require a truthy
`priceAttribute.value`, parse it, require it positive and not `NaN`, skip
when the parsed attributes already carry the processed marker, otherwise
push the marker, filter `EXCLUDED_ATTRIBUTES` out and emit the one-item
`lineExpand` at `currentPrice + additionalPrice`. -/
def processLine (item : CartLine) : Option CartOperation :=
  let currentPrice := parseFloatJS item.costAmount
  match item.priceAttribute with
  | none => none
  | some v =>
    if v = "" then none
    else
      match parseFloatJS v with
      | none => none
      | some additionalPrice =>
        if 0 < additionalPrice then
          let allAttributes := getAttributes item
          let isProcessed :=
            allAttributes.any (fun attr => attr.key == "_cart_transform_processed")
          if isProcessed then none
          else
            let newUnitPrice := currentPrice.map (fun c => c + additionalPrice)
            let withMarker :=
              allAttributes ++ [{ key := "_cart_transform_processed", value := "true" }]
            let finalAttributes :=
              withMarker.filter (fun attr => !(EXCLUDED_ATTRIBUTES.contains attr.key))
            some
              { lineExpand :=
                  { cartLineId := item.id
                    expandedCartItems :=
                      [{ merchandiseId := item.merchandiseId
                         quantity := 1
                         amount := newUnitPrice
                         attributes := finalAttributes }] } }
        else none

/-- `cartTransformRun`: early-return `{ operations: [] }` on an empty cart,
otherwise collect the operation each line pushes. -/
def cartTransformRun (lines : List CartLine) : CartTransformRunResult :=
  if lines.length = 0 then { operations := [] }
  else { operations := lines.filterMap processLine }

/-- The emitted operation on a qualifying line, as `processLine` builds it. -/
def emittedOp (item : CartLine) (p : ℚ) : CartOperation :=
  { lineExpand :=
      { cartLineId := item.id
        expandedCartItems :=
          [{ merchandiseId := item.merchandiseId
             quantity := 1
             amount := (parseFloatJS item.costAmount).map (fun c => c + p)
             attributes :=
               ((getAttributes item) ++
                 [Attr.mk "_cart_transform_processed" "true"]).filter
                 (fun attr => !(EXCLUDED_ATTRIBUTES.contains attr.key)) }] } }

/-- Modelled from the spec: the function's cart input query (`run.graphql`,
which binds the GraphQL aliases `priceAttribute` and `attribute` to reserved
attribute keys, is not under `src/`).  Per the spec's reserved keys — the
additional-price signal key `_price` named by `EXCLUDED_ATTRIBUTES` and the
serialized attribute map — the checkout engine presents a replacement item
emitted by an operation as a fresh cart line whose `priceAttribute` is the
value of its `_price` attribute, if any, and whose attribute blob serializes
exactly its attribute list.  The new line id and the engine-rendered cost
string are supplied by the engine and are free parameters here. -/
def lineOfExpandedItem (newLineId costAmount : String) (e : ExpandedItem) : CartLine :=
  { id := newLineId
    costAmount := costAmount
    merchandiseId := e.merchandiseId
    priceAttribute := (e.attributes.find? (fun attr => attr.key == "_price")).map Attr.value
    attributeBlob := Blob.parsed e.attributes }

/-! ## Option model and renderer helpers

Embedding of the option data model and of the renderer helpers
`wrapWithConditional` and `validateNumberInput` from
`extensions/options/assets/option-renderers.js`. -/

/-- The option types dispatched by `window.OptionRenderers`. -/
inductive OptionType where
  | text
  | number
  | dropdown
  | dropdown_thumbnail
  | radio
  deriving DecidableEq, Repr

/-- One selectable value of a multi-value option. -/
structure OptionValue where
  id : String
  label : String
  image : Option String
  price : Option String
  deriving DecidableEq, Repr

/-- One configurable product option as the renderers consume it.
`dependOnOptionId = none` models an unset (falsy `undefined`/`null`) field;
JS truthiness also treats `some ""` as unset. -/
structure ProductOption where
  id : String
  type : OptionType
  name : String
  required : Bool
  values : List OptionValue
  price : Option String
  dependOnOptionId : Option String
  showWhenValue : String
  deriving DecidableEq, Repr

/-- Result of the conditional-wrapping step: either the renderer's fragment
unchanged, or the fragment wrapped in the conditional container that carries
`data-depend-on` and `data-expected-value` and starts hidden. -/
inductive WrapResult where
  | unwrapped : String → WrapResult
  | wrapped : String → String → String → WrapResult
  deriving DecidableEq, Repr

/-- The exact markup each `WrapResult` stands for: the source's template
string for the wrapped case (`display: none;` container), the fragment
itself otherwise. -/
def WrapResult.toHtml : WrapResult → String
  | .unwrapped html => html
  | .wrapped dependOn expectedValue html =>
      "\n      <div class=\"conditional-option\"\n           data-depend-on=\"" ++
        dependOn ++
        "\"\n           data-expected-value=\"" ++
        expectedValue ++
        "\"\n           style=\"display: none;\">\n        " ++
        html ++
        "\n      </div>\n    "

/-- `wrapWithConditional`: return the fragment unchanged when
`dependOnOptionId` is falsy, when the option depends on itself (a warning is
logged), or when no sibling option with that id and type `radio` exists;
otherwise wrap the fragment in the hidden conditional container. -/
def wrapWithConditional (html : String) (o : ProductOption)
    (allOptions : List ProductOption) : WrapResult :=
  match o.dependOnOptionId with
  | none => .unwrapped html
  | some dependOnOptionId =>
    if dependOnOptionId = "" then .unwrapped html
    else if o.id = dependOnOptionId then .unwrapped html
    else
      match allOptions.find?
          (fun opt => opt.id == dependOnOptionId && opt.type == OptionType.radio) with
      | none => .unwrapped html
      | some _ => .wrapped dependOnOptionId o.showWhenValue html

/-- Modelled from the spec: the storefront script that performs the one-time
initial visibility evaluation of a `conditional-option` container is not
under `src/` (only `wrapWithConditional`, which emits the container hidden
together with its `data-depend-on` and `data-expected-value` attributes, is).
Per the spec, that script resolves the governing radio among the sibling
options, takes its default pre-selected value — the first declared
`OptionValue`, since the radio renderer pre-selects none — and shows the
container exactly when that value's label equals the expected value; an
unresolvable dependency fails open to visible. -/
def initialShown (dependOn expectedValue : String)
    (allOptions : List ProductOption) : Bool :=
  match allOptions.find?
      (fun opt => opt.id == dependOn && opt.type == OptionType.radio) with
  | none => true
  | some radio =>
    match radio.values.head? with
    | none => false
    | some v => v.label == expectedValue

/-- `validateNumberInput`: read `parseInt` of the field value; on empty or
non-numeric input do nothing; clamp values above `99` to `"99"` and values
below `0` to `"0"` (each with a transient warning notice); leave in-range
values alone. -/
def validateNumberInput (v : String) : String :=
  match parseIntJS v with
  | none => v
  | some value =>
    if v = "" then v
    else if 99 < value then "99"
    else if value < 0 then "0"
    else v

/-- The spec's concrete scenario line for C3: base price `20.00`,
additional-price signal `"5.50"`, no processed marker. -/
def c3line : CartLine :=
  { id := "gid://shopify/CartLine/3", costAmount := "20.00",
    merchandiseId := "gid://shopify/ProductVariant/3",
    priceAttribute := some "5.50",
    attributeBlob := Blob.parsed [] }

/-- The replacement item the transform emits for `c3line`. -/
def c3e : ExpandedItem :=
  { merchandiseId := "gid://shopify/ProductVariant/3"
    quantity := 1
    amount := some ((20 : ℚ) + Rat.divInt 11 2)
    attributes := [] }

/-- The operation the transform emits for `c3line`. -/
def c3op : CartOperation :=
  { lineExpand :=
      { cartLineId := "gid://shopify/CartLine/3"
        expandedCartItems := [c3e] } }

/-- Concrete first-pass line for the idempotence witness. -/
def c1line : CartLine :=
  { id := "gid://shopify/CartLine/1", costAmount := "20.00",
    merchandiseId := "gid://shopify/ProductVariant/1",
    priceAttribute := some "5.50",
    attributeBlob := Blob.parsed
      [Attr.mk "Engraving" "HELLO", Attr.mk "_price" "5.50"] }

/-- The replacement item the first pass emits for `c1line`. -/
def c1e : ExpandedItem :=
  { merchandiseId := "gid://shopify/ProductVariant/1"
    quantity := 1
    amount := some ((20 : ℚ) + Rat.divInt 11 2)
    attributes := [Attr.mk "Engraving" "HELLO"] }

/-- The operation the first pass emits for `c1line`. -/
def c1op : CartOperation :=
  { lineExpand :=
      { cartLineId := "gid://shopify/CartLine/1"
        expandedCartItems := [c1e] } }

/-- Concrete malformed-blob line for the C9 witness. -/
def c9line : CartLine :=
  { id := "gid://shopify/CartLine/7", costAmount := "20.00",
    merchandiseId := "gid://shopify/ProductVariant/7",
    priceAttribute := some "5.50",
    attributeBlob := Blob.malformed }

/-- Concrete radio option governing the C8 witness dependency. -/
def radioOption8 : ProductOption :=
  { id := "r8", type := OptionType.radio, name := "Color", required := false,
    values := [OptionValue.mk "v1" "Red" none none,
               OptionValue.mk "v2" "Blue" none none],
    price := none, dependOnOptionId := none, showWhenValue := "" }

/-- Concrete conditional option for the C8 witness, governed by `r8`. -/
def textOption8 : ProductOption :=
  { id := "o8", type := OptionType.text, name := "Engraving",
    required := false, values := [], price := some "5",
    dependOnOptionId := some "r8", showWhenValue := "Red" }

/-- Concrete option with a dangling dependency for the C7 witness. -/
def ghostOption7 : ProductOption :=
  { id := "o7", type := OptionType.text, name := "Note", required := false,
    values := [], price := none,
    dependOnOptionId := some "ghost", showWhenValue := "Yes" }

/-- Concrete adjusted line for witnesses: one visible attribute and the raw
`_price` attribute in the blob. -/
def c4item : CartLine :=
  { id := "gid://shopify/CartLine/4", costAmount := "20.00",
    merchandiseId := "gid://shopify/ProductVariant/4",
    priceAttribute := some "5.50",
    attributeBlob := Blob.parsed
      [Attr.mk "Engraving" "HELLO", Attr.mk "_price" "5.50"] }

/-- The replacement item `processLine` emits for `c4item`. -/
def c4e : ExpandedItem :=
  { merchandiseId := "gid://shopify/ProductVariant/4"
    quantity := 1
    amount := some ((20 : ℚ) + Rat.divInt 11 2)
    attributes := [Attr.mk "Engraving" "HELLO"] }

/-- The operation `processLine` emits for `c4item`. -/
def c4op : CartOperation :=
  { lineExpand :=
      { cartLineId := "gid://shopify/CartLine/4"
        expandedCartItems := [c4e] } }

/-! ## Helper lemmas -/

theorem parseFloatJS_empty : parseFloatJS "" = none := by decide

theorem parseIntJS_empty : parseIntJS "" = none := by decide

/-- Forward computation of the loop body on a qualifying line. -/
theorem processLine_emits {item : CartLine} {v : String} {p : ℚ}
    (hv : item.priceAttribute = some v)
    (hp : parseFloatJS v = some p) (hpos : 0 < p)
    (hnm : (getAttributes item).any
      (fun attr => attr.key == "_cart_transform_processed") = false) :
    processLine item = some (emittedOp item p) := by
  have hne : v ≠ "" := by
    rintro rfl
    rw [parseFloatJS_empty] at hp
    cases hp
  simp only [processLine, hv, hp, if_neg hne, if_pos hpos, hnm, emittedOp,
    Bool.false_eq_true, if_false]

/-- Inversion of the loop body: an emitted operation determines its shape. -/
theorem processLine_some_inv {item : CartLine} {op : CartOperation}
    (h : processLine item = some op) :
    ∃ v p, item.priceAttribute = some v ∧ parseFloatJS v = some p ∧ 0 < p ∧
      (getAttributes item).any
        (fun attr => attr.key == "_cart_transform_processed") = false ∧
      op = emittedOp item p := by
  cases hv : item.priceAttribute with
  | none =>
    simp only [processLine, hv] at h
    exact Option.noConfusion h
  | some v =>
    by_cases hve : v = ""
    · simp only [processLine, hv, if_pos hve] at h
      exact Option.noConfusion h
    · cases hp : parseFloatJS v with
      | none =>
        simp only [processLine, hv, if_neg hve, hp] at h
        exact Option.noConfusion h
      | some p =>
        by_cases hpos : 0 < p
        · cases hproc : (getAttributes item).any
              (fun attr => attr.key == "_cart_transform_processed") with
          | true =>
            simp only [processLine, hv, if_neg hve, hp, if_pos hpos, hproc,
              if_true] at h
            exact Option.noConfusion h
          | false =>
            have hrun := processLine_emits hv hp hpos hproc
            rw [hrun] at h
            exact ⟨v, p, rfl, hp, hpos, rfl, (Option.some_inj.mp h).symm⟩
        · simp only [processLine, hv, if_neg hve, hp, if_neg hpos] at h
          exact Option.noConfusion h

/-- A line whose rebuilt `priceAttribute` is absent is skipped. -/
theorem processLine_none_of_no_signal {item : CartLine}
    (h : item.priceAttribute = none) : processLine item = none := by
  simp only [processLine, h]

/-! ## Claims -/

/-- C6: for the empty cart input, `cartTransformRun` returns exactly
`{ operations := [] }`. -/
theorem cartTransformRun_empty_cart :
    cartTransformRun [] = { operations := [] } := rfl

/-- C5: a line whose additional-price signal is absent, parses to `NaN`
(non-numeric), or parses to a non-positive number, contributes no operation
and is left untouched. -/
theorem processLine_no_adjustment (item : CartLine)
    (h : item.priceAttribute = none ∨
      ∃ v, item.priceAttribute = some v ∧
        (parseFloatJS v = none ∨ ∃ p, parseFloatJS v = some p ∧ p ≤ 0)) :
    processLine item = none := by
  rcases h with h | ⟨v, hv, hcase⟩
  · simp only [processLine, h]
  · by_cases hve : v = ""
    · simp only [processLine, hv, if_pos hve]
    · rcases hcase with hn | ⟨p, hp, hle⟩
      · simp only [processLine, hv, if_neg hve, hn]
      · simp only [processLine, hv, if_neg hve, hp, if_neg (not_lt.mpr hle)]

/-- C2: a line with a positive numeric additional-price signal `p`, base
unit price `b` and no processed marker among its parsed attributes yields
exactly one line-replace operation: it names the original line, holds a
single replacement item with the line's merchandise reference, quantity `1`
and fixed per-unit price exactly `b + p`. -/
theorem processLine_first_pass_price (item : CartLine) (v : String) (p b : ℚ)
    (hv : item.priceAttribute = some v)
    (hp : parseFloatJS v = some p) (hpos : 0 < p)
    (hb : parseFloatJS item.costAmount = some b)
    (hnm : ∀ a ∈ getAttributes item, a.key ≠ "_cart_transform_processed") :
    ∃ attrs, processLine item = some
      { lineExpand :=
          { cartLineId := item.id
            expandedCartItems :=
              [{ merchandiseId := item.merchandiseId
                 quantity := 1
                 amount := some (b + p)
                 attributes := attrs }] } } := by
  have hany : (getAttributes item).any
      (fun attr => attr.key == "_cart_transform_processed") = false := by
    rw [List.any_eq_false]
    intro a ha
    simpa using hnm a ha
  refine ⟨((getAttributes item) ++
      [Attr.mk "_cart_transform_processed" "true"]).filter
      (fun attr => !(EXCLUDED_ATTRIBUTES.contains attr.key)), ?_⟩
  rw [processLine_emits hv hp hpos hany]
  simp only [emittedOp, hb, Option.map_some']

/-- Witness for C2: base price `20.00`, signal `"5.50"`, one carried
attribute, no processed marker. -/
theorem processLine_first_pass_price_witness :
    ∃ attrs, processLine
      { id := "gid://shopify/CartLine/1", costAmount := "20.00",
        merchandiseId := "gid://shopify/ProductVariant/1",
        priceAttribute := some "5.50",
        attributeBlob := Blob.parsed [Attr.mk "Engraving" "HELLO"] } = some
      { lineExpand :=
          { cartLineId := "gid://shopify/CartLine/1"
            expandedCartItems :=
              [{ merchandiseId := "gid://shopify/ProductVariant/1"
                 quantity := 1
                 amount := some ((20 : ℚ) + Rat.divInt 11 2)
                 attributes := attrs }] } } :=
  processLine_first_pass_price _ "5.50" (Rat.divInt 11 2) 20 rfl
    (by decide) (by decide) (by decide) (by decide)

/-- C4: the replacement item of every adjusted line carries exactly the
parsed attributes whose keys are not excluded: the processed-marker key and
the raw `_price` signal key never appear, and every other parsed attribute
carries through unchanged (its full key/value pair is kept, in order). -/
theorem replacement_attributes_frame (item : CartLine) (op : CartOperation)
    (h : processLine item = some op) (e : ExpandedItem)
    (he : e ∈ op.lineExpand.expandedCartItems) :
    e.attributes = (getAttributes item).filter
        (fun attr => !(EXCLUDED_ATTRIBUTES.contains attr.key)) ∧
    (∀ a ∈ e.attributes,
      a.key ≠ "_cart_transform_processed" ∧ a.key ≠ "_price") ∧
    (∀ a ∈ getAttributes item,
      a.key ≠ "_cart_transform_processed" → a.key ≠ "_price" →
        a ∈ e.attributes) := by
  obtain ⟨v, p, hv, hp, hpos, hproc, rfl⟩ := processLine_some_inv h
  simp only [emittedOp, List.mem_singleton] at he
  subst he
  have hfilter :
      (((getAttributes item) ++
        [Attr.mk "_cart_transform_processed" "true"]).filter
        (fun attr => !(EXCLUDED_ATTRIBUTES.contains attr.key))) =
      (getAttributes item).filter
        (fun attr => !(EXCLUDED_ATTRIBUTES.contains attr.key)) := by
    rw [List.filter_append]
    simp [EXCLUDED_ATTRIBUTES]
  refine ⟨hfilter, ?_, ?_⟩
  · intro a ha
    rw [hfilter, List.mem_filter] at ha
    have hpred := ha.2
    simp only [EXCLUDED_ATTRIBUTES, List.contains, Bool.not_eq_true'] at hpred
    constructor
    · intro hk
      rw [hk] at hpred
      simp at hpred
    · intro hk
      rw [hk] at hpred
      simp at hpred
  · intro a ha hk1 hk2
    rw [hfilter, List.mem_filter]
    refine ⟨ha, ?_⟩
    simp [EXCLUDED_ATTRIBUTES, hk1, hk2]

/-- Witness for C4 at a concrete adjusted line with one customer-visible
attribute and the raw `_price` attribute in the blob. -/
theorem replacement_attributes_frame_witness :
    c4e.attributes = (getAttributes c4item).filter
        (fun attr => !(EXCLUDED_ATTRIBUTES.contains attr.key)) ∧
    (∀ a ∈ c4e.attributes,
      a.key ≠ "_cart_transform_processed" ∧ a.key ≠ "_price") ∧
    (∀ a ∈ getAttributes c4item,
      a.key ≠ "_cart_transform_processed" → a.key ≠ "_price" →
        a ∈ c4e.attributes) :=
  replacement_attributes_frame c4item c4op (by rfl) c4e
    (List.mem_singleton_self c4e)

/-- C1: the Cart Price Transform is idempotent.  For any cart whose lines
are all rebuilt from replacement items emitted by a first
`cartTransformRun` pass (with engine-chosen new line ids and cost strings),
the second pass emits no operation at all: no line already adjusted in the
first pass yields another price adjustment. -/
theorem cartTransformRun_idempotent (lines seconds : List CartLine)
    (newId cost : ExpandedItem → String)
    (h : ∀ l ∈ seconds, ∃ op ∈ (cartTransformRun lines).operations,
      ∃ e ∈ op.lineExpand.expandedCartItems,
        l = lineOfExpandedItem (newId e) (cost e) e) :
    cartTransformRun seconds = { operations := [] } := by
  have hnone : ∀ l ∈ seconds, processLine l = none := by
    intro l hl
    obtain ⟨op, hop, e, he, rfl⟩ := h l hl
    have hops : op ∈ lines.filterMap processLine := by
      unfold cartTransformRun at hop
      by_cases hlen : lines.length = 0
      · rw [if_pos hlen] at hop
        simp at hop
      · rw [if_neg hlen] at hop
        exact hop
    obtain ⟨item, _, hsome⟩ := List.mem_filterMap.mp hops
    obtain ⟨v, p, hv, hp, hpos, hproc, rfl⟩ := processLine_some_inv hsome
    simp only [emittedOp, List.mem_singleton] at he
    subst he
    apply processLine_none_of_no_signal
    have hfind : (((getAttributes item) ++
        [Attr.mk "_cart_transform_processed" "true"]).filter
        (fun attr => !(EXCLUDED_ATTRIBUTES.contains attr.key))).find?
        (fun attr => attr.key == "_price") = none := by
      rw [List.find?_eq_none]
      intro a ha
      rw [List.mem_filter] at ha
      have hpred := ha.2
      simp only [EXCLUDED_ATTRIBUTES, List.contains, Bool.not_eq_true'] at hpred
      simp only [beq_iff_eq]
      intro hk
      rw [hk] at hpred
      simp at hpred
    simp only [lineOfExpandedItem, hfind, Option.map_none']
  unfold cartTransformRun
  by_cases hlen : seconds.length = 0
  · rw [if_pos hlen]
  · rw [if_neg hlen]
    have : seconds.filterMap processLine = [] := List.filterMap_eq_nil_iff.mpr hnone
    rw [this]

/-- Witness for C1: the second pass on the line rebuilt from the first
pass's replacement item for `c1line` emits nothing. -/
theorem cartTransformRun_idempotent_witness :
    cartTransformRun
      [lineOfExpandedItem "gid://shopify/CartLine/9" "25.50" c1e] =
      { operations := [] } :=
  cartTransformRun_idempotent [c1line] _
    (fun _ => "gid://shopify/CartLine/9") (fun _ => "25.50")
    (fun l hl => by
      rw [List.mem_singleton] at hl
      subst hl
      exact ⟨c1op, by show c1op ∈ [c1op]; exact List.mem_singleton_self c1op,
             c1e, List.mem_singleton_self c1e, rfl⟩)

/-- C3 counterexample: on the spec's own scenario (base price `20.00`,
signal `"5.50"`, no processed marker) the transform does emit the
replace-operation, but no processed-marker attribute is present on the
emitted replacement — the marker is pushed internally and immediately
stripped by the `EXCLUDED_ATTRIBUTES` filter, refuting "the processed-marker
set on the result". -/
theorem cartTransform_marker_not_on_result :
    processLine c3line = some c3op ∧
    ¬ ∃ e ∈ c3op.lineExpand.expandedCartItems,
        ∃ a ∈ e.attributes, a.key = "_cart_transform_processed" := by
  constructor
  · rfl
  · decide

/-- C3 (amended): when the transform adjusts a line it pushes the
processed-marker internally but the `EXCLUDED_ATTRIBUTES` filter strips it
(together with the raw `_price` signal) from the replacement it emits, so
the marker is not set on the result.  For the scenario line the emitted
operation fixes the unit price at `20 + 5.5 = 25.5`, the replacement
carries no processed marker, and re-running the transform on the rebuilt
result still emits no further operation — idempotence is delivered by the
stripped price signal, not by the marker. -/
theorem cartTransform_marker_amended :
    processLine c3line = some c3op ∧
    (∀ e ∈ c3op.lineExpand.expandedCartItems,
      ∀ a ∈ e.attributes, a.key ≠ "_cart_transform_processed") ∧
    ((20 : ℚ) + Rat.divInt 11 2 = Rat.divInt 51 2) ∧
    (∀ newId cost, processLine (lineOfExpandedItem newId cost c3e) = none) := by
  refine ⟨rfl, by decide, ?_, ?_⟩
  · rw [Rat.divInt_eq_div, Rat.divInt_eq_div]
    norm_num
  · intro newId cost
    apply processLine_none_of_no_signal
    rfl

/-- Witness for C5 at a concrete negative-signal line. -/
theorem processLine_no_adjustment_witness :
    processLine
      { id := "gid://shopify/CartLine/9", costAmount := "10.00",
        merchandiseId := "gid://shopify/ProductVariant/9",
        priceAttribute := some "-2", attributeBlob := Blob.missing } = none :=
  processLine_no_adjustment _
    (Or.inr ⟨"-2", rfl, Or.inr ⟨-2, by decide, by decide⟩⟩)

/-- C9: parsing the serialized attribute blob never raises an exception: a
missing or malformed blob yields the empty attribute list, and such a line
with a positive numeric additional-price signal still gets its price
adjustment. -/
theorem getAttributes_malformed_safe (item : CartLine) (v : String) (p : ℚ)
    (hblob : item.attributeBlob = Blob.malformed ∨
      item.attributeBlob = Blob.missing) :
    getAttributes item = [] ∧
    (item.priceAttribute = some v → parseFloatJS v = some p → 0 < p →
      processLine item = some (emittedOp item p)) := by
  have hempty : getAttributes item = [] := by
    rcases hblob with h | h <;> simp [getAttributes, h]
  refine ⟨hempty, fun hv hp hpos => ?_⟩
  apply processLine_emits hv hp hpos
  rw [hempty]
  rfl

/-- Witness for C9 at a concrete malformed-blob line with signal `"5.50"`. -/
theorem getAttributes_malformed_safe_witness :
    getAttributes c9line = [] ∧
    processLine c9line = some (emittedOp c9line (Rat.divInt 11 2)) :=
  ⟨(getAttributes_malformed_safe c9line "5.50" (Rat.divInt 11 2)
      (Or.inl rfl)).1,
   (getAttributes_malformed_safe c9line "5.50" (Rat.divInt 11 2)
      (Or.inl rfl)).2 rfl (by decide) (by decide)⟩

/-- C7: an option whose `dependOnOptionId` does not resolve to a different
existing sibling radio option — self-dependency, missing id, or a non-radio
target — is returned unwrapped by the conditional-wrapping step, hence
always visible; the function is total, so it never throws. -/
theorem wrapWithConditional_fail_open (html : String) (o : ProductOption)
    (allOptions : List ProductOption) (d : String)
    (hd : o.dependOnOptionId = some d)
    (h : o.id = d ∨
      ∀ opt ∈ allOptions, ¬(opt.id = d ∧ opt.type = OptionType.radio)) :
    wrapWithConditional html o allOptions = WrapResult.unwrapped html ∧
    (wrapWithConditional html o allOptions).toHtml = html := by
  have hmain : wrapWithConditional html o allOptions =
      WrapResult.unwrapped html := by
    by_cases hde : d = ""
    · simp only [wrapWithConditional, hd, if_pos hde]
    · by_cases hoid : o.id = d
      · simp only [wrapWithConditional, hd, if_neg hde, if_pos hoid]
      · have hfind : allOptions.find?
            (fun opt => opt.id == d && opt.type == OptionType.radio) = none := by
          rw [List.find?_eq_none]
          intro opt hopt
          simp only [Bool.and_eq_true, beq_iff_eq, not_and]
          intro h1 h2
          rcases h with h | h
          · exact absurd h hoid
          · exact absurd ⟨h1, h2⟩ (h opt hopt)
        simp only [wrapWithConditional, hd, if_neg hde, if_neg hoid, hfind]
  exact ⟨hmain, by rw [hmain]; rfl⟩

/-- Witness for C7: a dangling `dependOnOptionId` in a sibling list with no
matching radio leaves the fragment unwrapped. -/
theorem wrapWithConditional_fail_open_witness :
    wrapWithConditional "<div>note</div>" ghostOption7
        [radioOption8, ghostOption7] =
      WrapResult.unwrapped "<div>note</div>" ∧
    (wrapWithConditional "<div>note</div>" ghostOption7
        [radioOption8, ghostOption7]).toHtml = "<div>note</div>" :=
  wrapWithConditional_fail_open "<div>note</div>" ghostOption7
    [radioOption8, ghostOption7] "ghost" rfl (Or.inr (by decide))

/-- C8: a conditional option whose dependency resolves to an existing radio
is wrapped in a container carrying exactly its dependency id and expected
value, and the modelled one-time initial evaluation shows that container iff
the governing radio's default pre-selected value — its first declared
`OptionValue` — has the option's `showWhenValue` as its label. -/
theorem conditional_initial_render (html : String) (o r : ProductOption)
    (allOptions : List ProductOption) (d : String) (v0 : OptionValue)
    (hd : o.dependOnOptionId = some d) (hne : d ≠ "") (hself : o.id ≠ d)
    (hfind : allOptions.find?
      (fun opt => opt.id == d && opt.type == OptionType.radio) = some r)
    (hv0 : r.values.head? = some v0) :
    wrapWithConditional html o allOptions =
      WrapResult.wrapped d o.showWhenValue html ∧
    (initialShown d o.showWhenValue allOptions = true ↔
      v0.label = o.showWhenValue) := by
  constructor
  · simp only [wrapWithConditional, hd, if_neg hne, if_neg hself, hfind]
  · simp only [initialShown, hfind, hv0, beq_iff_eq]

/-- Witness for C8: option `o8` depends on radio `r8` whose first declared
value is `Red`, which equals `showWhenValue`, so the container is initially
shown. -/
theorem conditional_initial_render_witness :
    wrapWithConditional "<div>engraving</div>" textOption8
        [radioOption8, textOption8] =
      WrapResult.wrapped "r8" "Red" "<div>engraving</div>" ∧
    (initialShown "r8" "Red" [radioOption8, textOption8] = true ↔
      ("Red" : String) = "Red") :=
  conditional_initial_render "<div>engraving</div>" textOption8 radioOption8
    [radioOption8, textOption8] "r8" (OptionValue.mk "v1" "Red" none none)
    rfl (by decide) (by decide) (by decide) rfl

/-- C10: `validateNumberInput` clamps out-of-range numeric input to the
nearest bound of `[0, 99]` — `150` becomes `"99"`, `-5` becomes `"0"` —
while empty or non-numeric input, and in-range input, is left unmodified. -/
theorem validateNumberInput_clamps (v : String) (n : ℤ) :
    validateNumberInput "150" = "99" ∧
    validateNumberInput "-5" = "0" ∧
    (parseIntJS v = none → validateNumberInput v = v) ∧
    (parseIntJS v = some n → 99 < n → validateNumberInput v = "99") ∧
    (parseIntJS v = some n → n < 0 → validateNumberInput v = "0") ∧
    (parseIntJS v = some n → 0 ≤ n → n ≤ 99 → validateNumberInput v = v) := by
  have hve : parseIntJS v = some n → v ≠ "" := by
    intro h hveq
    rw [hveq, parseIntJS_empty] at h
    cases h
  refine ⟨by decide, by decide, ?_, ?_, ?_, ?_⟩
  · intro h
    simp only [validateNumberInput, h]
  · intro h hgt
    simp only [validateNumberInput, h, if_neg (hve h), if_pos hgt]
  · intro h hlt
    have hngt : ¬ 99 < n := by omega
    simp only [validateNumberInput, h, if_neg (hve h), if_neg hngt,
      if_pos hlt]
  · intro h h0 h99
    have hngt : ¬ 99 < n := by omega
    have hnlt : ¬ n < 0 := by omega
    simp only [validateNumberInput, h, if_neg (hve h), if_neg hngt,
      if_neg hnlt]

/-- Witness for C10 discharging the clamp implications at `150` and `-5`
and the untouched case at `"abc"`. -/
theorem validateNumberInput_clamps_witness :
    validateNumberInput "150" = "99" ∧ validateNumberInput "-5" = "0" ∧
    validateNumberInput "abc" = "abc" :=
  ⟨(validateNumberInput_clamps "150" 150).2.2.2.1 (by decide) (by decide),
   (validateNumberInput_clamps "-5" (-5)).2.2.2.2.1 (by decide) (by decide),
   (validateNumberInput_clamps "abc" 0).2.2.1 (by decide)⟩

end ShopifyOptionsApp
